import Mathlib

/-!
Shallow embedding of the telemetry core of `bot_render.py` (oxygen-plant
monitoring bot): plant registry, sample history store, statistics
aggregator, threshold evaluator and alert dispatcher.

Modelling conventions:
* SQLite rows become Lean structures; the three tables touched by the core
  (`plantas`, `historial`, `config_alertas`) become lists held in `Estado`.
  The `eventos` audit table and Google-Sheets mirroring are write-only side
  channels no queried behaviour depends on, and are not modelled.
* `REAL` columns and numeric payload fields are modelled as `ℚ`;
  `INTEGER` 0/1 flags as `Bool`; `TEXT` as `String`; nullable metric
  columns of `historial` as `Option ℚ`.
* The ingestion payload (a free-form JSON object from the ESP32) is the
  structure `Datos`; a field that the payload may omit is an `Option`
  (a JSON `null` value is not distinguished from an absent key).
* `datetime.now()` is threaded in explicitly: as an ISO-8601 string where
  the code stores it, and as a rational number of minutes where the code
  does timedelta arithmetic (`Ahora` carries both views of one instant;
  the clock is an integer number of minutes, the granularity at which the
  cool-down interval — an INTEGER column — is expressed).
* SQLite TEXT comparison (`timestamp >= ?` etc.) is memcmp on bytes; all
  stored timestamps are ASCII, so it is modelled by `charsLe` on the
  character list.
-/

/-- Alert-threshold environment defaults (`PUREZA_MINIMA` etc. with their
default values; environment overrides are out of the modelled scope). -/
def PUREZA_MINIMA : ℚ := 93

/-- Default maximum pressure (bar). -/
def PRESION_MAXIMA : ℚ := 7

/-- Default maximum temperature (°C). -/
def TEMPERATURA_MAXIMA : ℚ := 45

/-- One row of the `plantas` table. -/
structure Planta where
  nombre : String
  ubicacion : String
  presion_bar : ℚ
  temperatura_c : ℚ
  pureza_pct : ℚ
  flujo_nm3h : ℚ
  horas_operacion : ℚ
  modo : String
  alarma : Bool
  mensaje_alarma : String
  ultima_actualizacion : String
  activa : Bool
  capacidad_nominal : ℚ
  fecha_instalacion : Option String
  responsable : String
  deriving DecidableEq

/-- One row of the `historial` table (the append-only time store). The
metric columns are nullable in the schema, hence `Option ℚ`. -/
structure Hist where
  planta_id : String
  timestamp : String
  presion_bar : Option ℚ
  temperatura_c : Option ℚ
  pureza_pct : Option ℚ
  flujo_nm3h : Option ℚ
  modo : String
  alarma : Bool
  mensaje_alarma : String
  horas_operacion : ℚ
  deriving DecidableEq

/-- One row of the `config_alertas` table (per-plant threshold config).
The unused `ultima_alerta` and `flujo_minimo` columns are not modelled. -/
structure ConfigAlertas where
  intervalo_alerta_min : ℤ
  alertas_activas : Bool
  pureza_minima : ℚ
  presion_maxima : ℚ
  temperatura_maxima : ℚ
  deriving DecidableEq

/-- The ingestion payload posted to `/api/datos`. The `timestamp` field,
when a sender includes one, is never read by the code. -/
structure Datos where
  planta_id : String
  nombre : Option String := none
  presion_bar : Option ℚ := none
  temperatura_c : Option ℚ := none
  pureza_pct : Option ℚ := none
  flujo_nm3h : Option ℚ := none
  horas_operacion : Option ℚ := none
  modo : Option String := none
  alarma : Bool := false
  mensaje_alarma : Option String := none
  timestamp : Option String := none
  deriving DecidableEq

/-- The persistent database state: the three tables the core touches. -/
structure Estado where
  plantas : List (String × Planta)
  historial : List Hist
  config_alertas : List (String × ConfigAlertas)
  deriving DecidableEq

/-- The empty database, as created by `inicializar_db`. -/
def estadoInicial : Estado := ⟨[], [], []⟩

/-- One instant of `datetime.now()`: its ISO-8601 rendering (stored in
TEXT columns) and its value as minutes on a linear clock (used for the
cool-down arithmetic `datetime.now() - last >= timedelta(minutes=i)`). -/
structure Ahora where
  iso : String
  t : ℤ
  deriving DecidableEq

/-- `obtener_plantas_db`: all rows of `plantas` with `activa = 1`,
keyed by id. -/
def obtener_plantas_db (st : Estado) : List (String × Planta) :=
  st.plantas.filter (fun kv => kv.2.activa)

/-- The `historial` row inserted by `actualizar_planta_db` for one
ingestion call (`INSERT INTO historial ...` with `datos.get` defaults). -/
def histDe (planta_id : String) (datos : Datos) (now : String) : Hist :=
  { planta_id := planta_id
    timestamp := now
    presion_bar := some (datos.presion_bar.getD 0)
    temperatura_c := some (datos.temperatura_c.getD 0)
    pureza_pct := some (datos.pureza_pct.getD 0)
    flujo_nm3h := some (datos.flujo_nm3h.getD 0)
    modo := datos.modo.getD ""
    alarma := datos.alarma
    mensaje_alarma := datos.mensaje_alarma.getD ""
    horas_operacion := datos.horas_operacion.getD 0 }

/-- `actualizar_planta_db`: upsert of the current-state row (UPDATE with
`COALESCE` on `nombre` and `horas_operacion` when the row exists, INSERT
with defaults otherwise), plus the unconditional `historial` append.
`now` models the single `datetime.now().isoformat()` of the call. -/
def actualizar_planta_db (st : Estado) (planta_id : String) (datos : Datos)
    (now : String) : Estado :=
  match List.lookup planta_id st.plantas with
  | some p =>
    let p' : Planta :=
      { p with
        nombre := datos.nombre.getD p.nombre
        presion_bar := datos.presion_bar.getD 0
        temperatura_c := datos.temperatura_c.getD 0
        pureza_pct := datos.pureza_pct.getD 0
        flujo_nm3h := datos.flujo_nm3h.getD 0
        horas_operacion := datos.horas_operacion.getD p.horas_operacion
        modo := datos.modo.getD "Desconocido"
        alarma := datos.alarma
        mensaje_alarma := datos.mensaje_alarma.getD ""
        ultima_actualizacion := now }
    { st with
      plantas := st.plantas.map
        (fun kv => if kv.1 = planta_id then (kv.1, p') else kv)
      historial := st.historial ++ [histDe planta_id datos now] }
  | none =>
    let p : Planta :=
      { nombre := datos.nombre.getD ("Planta " ++ planta_id)
        ubicacion := ""
        presion_bar := datos.presion_bar.getD 0
        temperatura_c := datos.temperatura_c.getD 0
        pureza_pct := datos.pureza_pct.getD 0
        flujo_nm3h := datos.flujo_nm3h.getD 0
        horas_operacion := datos.horas_operacion.getD 0
        modo := datos.modo.getD "Desconocido"
        alarma := datos.alarma
        mensaje_alarma := datos.mensaje_alarma.getD ""
        ultima_actualizacion := now
        activa := true
        capacidad_nominal := 0
        fecha_instalacion := none
        responsable := "" }
    { st with
      plantas := st.plantas ++ [(planta_id, p)]
      historial := st.historial ++ [histDe planta_id datos now] }

/-- The default per-plant alert configuration (interval 5 min, alerts on,
global threshold constants). Inserted by `agregar_planta_db` and also the
fallback dict of `SistemaAlertas.obtener_config`. -/
def configPorDefecto : ConfigAlertas :=
  { intervalo_alerta_min := 5
    alertas_activas := true
    pureza_minima := PUREZA_MINIMA
    presion_maxima := PRESION_MAXIMA
    temperatura_maxima := TEMPERATURA_MAXIMA }

/-- `agregar_planta_db`: registers a new plant. The INSERT hits the
`plantas` PRIMARY KEY (and `config_alertas` UNIQUE) constraint whenever a
row with that id already exists — active or not — in which case the
transaction is rolled back and the call returns `false`. -/
def agregar_planta_db (st : Estado) (planta_id nombre ubicacion : String)
    (capacidad : ℚ) (responsable : String) (now : String) : Estado × Bool :=
  if (List.lookup planta_id st.plantas).isSome
      || (List.lookup planta_id st.config_alertas).isSome then
    (st, false)
  else
    let p : Planta :=
      { nombre := nombre
        ubicacion := ubicacion
        presion_bar := 0
        temperatura_c := 0
        pureza_pct := 0
        flujo_nm3h := 0
        horas_operacion := 0
        modo := "Desconocido"
        alarma := false
        mensaje_alarma := ""
        ultima_actualizacion := now
        activa := true
        capacidad_nominal := capacidad
        fecha_instalacion := some now
        responsable := responsable }
    ({ st with
       plantas := st.plantas ++ [(planta_id, p)]
       config_alertas := st.config_alertas ++ [(planta_id, configPorDefecto)] },
     true)

/-- `eliminar_planta_db`: soft delete. `UPDATE plantas SET activa = 0
WHERE id = ?`; SQLite's rowcount counts every matched row whether or not
its value changed, so the call reports success whenever a row with that
id exists at all. -/
def eliminar_planta_db (st : Estado) (planta_id : String) : Estado × Bool :=
  let affected := (st.plantas.filter (fun kv => kv.1 = planta_id)).length
  ({ st with
     plantas := st.plantas.map
       (fun kv => if kv.1 = planta_id then (kv.1, { kv.2 with activa := false })
                  else kv) },
   decide (0 < affected))

/-- Byte-wise (memcmp) string order used by SQLite TEXT comparison,
on character lists. -/
def charsLe : List Char → List Char → Bool
  | [], _ => true
  | _ :: _, [] => false
  | a :: as, b :: bs =>
    if a < b then true else if b < a then false else charsLe as bs

/-- SQLite TEXT `<=` on strings (all modelled strings are ASCII). -/
def strLe (a b : String) : Bool := charsLe a.data b.data

/-- Insert into a list sorted by `le` (helper of the `ORDER BY` model). -/
def insertLe (le : α → α → Bool) (x : α) : List α → List α
  | [] => [x]
  | y :: ys => if le x y then x :: y :: ys else y :: insertLe le x ys

/-- Insertion sort, modelling SQL `ORDER BY`. -/
def sortLe (le : α → α → Bool) : List α → List α
  | [] => []
  | x :: xs => insertLe le x (sortLe le xs)

/-- `obtener_historial_db`: range query over `historial`. A 10-character
(date-only) bound is widened to the whole day; an empty-string bound is
falsy in Python and disables that filter, as does `limite = 0`. -/
def obtener_historial_db (hist : List Hist) (planta_id : String)
    (desde hasta : Option String) (limite : Option ℕ) : List Hist :=
  let filtrado := hist.filter (fun e =>
    e.planta_id == planta_id
    && (match desde with
        | none => true
        | some d =>
          d == "" || strLe (if d.length = 10 then d ++ "T00:00:00" else d)
                       e.timestamp)
    && (match hasta with
        | none => true
        | some h =>
          h == "" || strLe e.timestamp
                       (if h.length = 10 then h ++ "T23:59:59" else h)))
  let ordenado := sortLe (fun a b => strLe a.timestamp b.timestamp) filtrado
  match limite with
  | none => ordenado
  | some 0 => ordenado
  | some n => ordenado.take n

/-- Arithmetic mean of a list of rationals (`statistics.mean`; the empty
case never arises in the guarded code, `0/0 = 0` in Lean). -/
def meanQ (l : List ℚ) : ℚ := l.sum / l.length

/-- `min(values)` over a nonempty list (0 for the never-reached empty case). -/
def minQ : List ℚ → ℚ
  | [] => 0
  | x :: xs => xs.foldl min x

/-- `max(values)` over a nonempty list. -/
def maxQ : List ℚ → ℚ
  | [] => 0
  | x :: xs => xs.foldl max x

/-- `statistics.median`: middle of the sorted list, or the mean of the two
middle elements for even length. -/
def medianQ (l : List ℚ) : ℚ :=
  let s := sortLe (fun a b => decide (a ≤ b)) l
  if s.length % 2 = 1 then s.getD (s.length / 2) 0
  else (s.getD (s.length / 2 - 1) 0 + s.getD (s.length / 2) 0) / 2

/-- Sample variance with divisor `n - 1`, the radicand of
`statistics.stdev`. -/
def varQ (l : List ℚ) : ℚ :=
  ((l.map (fun x => (x - meanQ l) ^ 2)).sum) / ((l.length : ℚ) - 1)

/-- `statistics.stdev values = sqrt(variance)`, exact over ℝ. -/
noncomputable def stdevR (l : List ℚ) : ℝ := Real.sqrt ((varQ l : ℚ) : ℝ)

/-- Python `round(x)` (banker's rounding: nearest integer, ties to even)
on rationals. -/
def broundQ (x : ℚ) : ℤ :=
  if Int.fract x = 1 / 2 then (if ⌊x⌋ % 2 = 0 then ⌊x⌋ else ⌊x⌋ + 1)
  else round x

/-- Python `round(x, 2)` on rationals. -/
def bround2Q (x : ℚ) : ℚ := (broundQ (x * 100) : ℚ) / 100

/-- Python `round(x)` on reals (for the one irrational quantity, the
standard deviation). -/
noncomputable def broundR (x : ℝ) : ℤ :=
  if Int.fract x = 1 / 2 then (if ⌊x⌋ % 2 = 0 then ⌊x⌋ else ⌊x⌋ + 1)
  else round x

/-- Python `round(x, 2)` on reals. -/
noncomputable def bround2R (x : ℝ) : ℝ := (broundR (x * 100) : ℝ) / 100

/-- The per-metric dictionary built by `safe_stats`. Every numeric entry
except `std` is rational-valued in the model; `std` goes through a real
square root. -/
structure StatDict where
  minV : ℚ
  maxV : ℚ
  avg : ℚ
  median : ℚ
  std : ℝ
  count : ℕ

/-- `safe_stats` of `calcular_estadisticas`: drops `None` values, returns
the zero dictionary when nothing is left, otherwise min/max/mean/median
rounded to 2 decimals, sample std-dev (0 when a single value) and count. -/
noncomputable def safe_stats (values : List (Option ℚ)) : StatDict :=
  let vs := values.filterMap id
  match vs with
  | [] => { minV := 0, maxV := 0, avg := 0, median := 0, std := 0, count := 0 }
  | _ =>
    { minV := bround2Q (minQ vs)
      maxV := bround2Q (maxQ vs)
      avg := bround2Q (meanQ vs)
      median := bround2Q (medianQ vs)
      std := if 1 < vs.length then bround2R (stdevR vs) else 0
      count := vs.length }

/-- The `periodo` block of the statistics result. -/
structure Periodo where
  inicio : Option String
  fin : Option String
  registros : ℕ

/-- The `alarmas` block of the statistics result. -/
structure AlarmasInfo where
  total : ℕ
  porcentaje : ℚ

/-- The `kpis` block of the statistics result. -/
structure Kpis where
  disponibilidad : ℚ
  cumplimiento_pureza : ℚ

/-- The full dictionary returned by `calcular_estadisticas` on a nonempty
slice. The mode distribution is an insertion-ordered association list,
like a Python dict. -/
structure Stats where
  periodo : Periodo
  pureza : StatDict
  flujo : StatDict
  presion : StatDict
  temperatura : StatDict
  alarmas : AlarmasInfo
  modos : List (String × ℕ)
  kpis : Kpis

/-- Counting dict update: `modos[modo] = modos.get(modo, 0) + 1`. -/
def bumpModo (acc : List (String × ℕ)) (m : String) : List (String × ℕ) :=
  if (List.lookup m acc).isSome then
    acc.map (fun kv => if kv.1 = m then (kv.1, kv.2 + 1) else kv)
  else acc ++ [(m, 1)]

/-- Mode distribution over the slice (dict in insertion order). -/
def cuentaModos (datos : List Hist) : List (String × ℕ) :=
  datos.foldl (fun acc d => bumpModo acc d.modo) []

/-- `calcular_estadisticas`: `None` (the empty dict `{}`) for the empty
slice, otherwise the full statistics dictionary. A `None` purity makes
the Python comparison `p >= 93` raise; that corner is unreachable from
the modelled writers (every insert stores a number) and the model counts
such a row as non-compliant. -/
noncomputable def calcular_estadisticas (datos : List Hist) : Option Stats :=
  match datos with
  | [] => none
  | _ =>
    let pureza := datos.map (fun d => d.pureza_pct)
    let flujo := datos.map (fun d => d.flujo_nm3h)
    let presion := datos.map (fun d => d.presion_bar)
    let temperatura := datos.map (fun d => d.temperatura_c)
    let alarmas := (datos.filter (fun d => d.alarma)).length
    let modos := cuentaModos datos
    let tiempo_produccion := (List.lookup "Producción" modos).getD 0
    let disponibilidad := (tiempo_produccion : ℚ) / (datos.length : ℚ) * 100
    let pureza_aceptable :=
      (pureza.filter (fun p => decide (93 ≤ p.getD 0))).length
    let cumplimiento_pureza :=
      (pureza_aceptable : ℚ) / (pureza.length : ℚ) * 100
    some
      { periodo :=
          { inicio := datos.head?.map (fun d => d.timestamp)
            fin := datos.getLast?.map (fun d => d.timestamp)
            registros := datos.length }
        pureza := safe_stats pureza
        flujo := safe_stats flujo
        presion := safe_stats presion
        temperatura := safe_stats temperatura
        alarmas :=
          { total := alarmas
            porcentaje := bround2Q ((alarmas : ℚ) / (datos.length : ℚ) * 100) }
        modos := modos
        kpis :=
          { disponibilidad := bround2Q disponibilidad
            cumplimiento_pureza := bround2Q cumplimiento_pureza } }

/-- `obtener_estadisticas_globales` (fleet aggregation over the active
plants of the registry). -/
def obtener_estadisticas_globales (st : Estado) :
    ℕ × ℕ × ℕ × ℕ × ℚ × ℚ :=
  let plantas := obtener_plantas_db st
  let total := plantas.length
  let operando := (plantas.filter (fun p => p.2.modo == "Producción")).length
  let mantenimiento :=
    (plantas.filter (fun p => p.2.modo == "Mantenimiento")).length
  let alarma := (plantas.filter (fun p => p.2.alarma)).length
  let pureza_promedio :=
    if plantas.isEmpty then 0 else meanQ (plantas.map (fun p => p.2.pureza_pct))
  let flujo_total := (plantas.map (fun p => p.2.flujo_nm3h)).sum
  (total, operando, mantenimiento, alarma,
   bround2Q pureza_promedio, bround2Q flujo_total)

/-- Which threshold a violation message is about, in the evaluator's
fixed check order. -/
inductive Umbral where
  | pureza_baja
  | presion_alta
  | temperatura_alta
  deriving DecidableEq

/-- One entry of the list built by `verificar_umbrales`: the violated
threshold together with the offending value and the configured limit
(the message string carries exactly these data). -/
structure Violacion where
  umbral : Umbral
  valor : ℚ
  limite : ℚ
  deriving DecidableEq

/-- `SistemaAlertas.obtener_config`: the plant's `config_alertas` row, or
the default config dict when there is none. -/
def obtener_config (st : Estado) (planta_id : String) : ConfigAlertas :=
  (List.lookup planta_id st.config_alertas).getD configPorDefecto

/-- The in-memory `self.ultima_alerta` dict of `SistemaAlertas`: plant id
to the clock value (minutes) of the last sent alert. -/
abbrev UltimaAlerta : Type := List (String × ℤ)

/-- `SistemaAlertas.puede_enviar`: `true` when no alert was ever sent for
the plant, or when at least the configured interval has elapsed. -/
def puede_enviar (st : Estado) (ua : UltimaAlerta) (planta_id : String)
    (now : ℤ) : Bool :=
  let intervalo := (obtener_config st planta_id).intervalo_alerta_min
  match List.lookup planta_id ua with
  | none => true
  | some last => decide (intervalo ≤ now - last)

/-- Core of `SistemaAlertas.verificar_umbrales` given the plant's config:
checks purity below minimum, then pressure above maximum, then
temperature above maximum, substituting 100 / 0 / 0 for missing payload
fields, and returns the violations in that fixed order. -/
def verificar_umbrales (config : ConfigAlertas) (datos : Datos) :
    List Violacion :=
  let pureza := datos.pureza_pct.getD 100
  let a1 : List Violacion :=
    if pureza < config.pureza_minima then
      [⟨Umbral.pureza_baja, pureza, config.pureza_minima⟩] else []
  let presion := datos.presion_bar.getD 0
  let a2 : List Violacion :=
    if config.presion_maxima < presion then
      [⟨Umbral.presion_alta, presion, config.presion_maxima⟩] else []
  let temp := datos.temperatura_c.getD 0
  let a3 : List Violacion :=
    if config.temperatura_maxima < temp then
      [⟨Umbral.temperatura_alta, temp, config.temperatura_maxima⟩] else []
  a1 ++ a2 ++ a3

/-- `SistemaAlertas.verificar_umbrales` as written: looks the config up
by plant id. -/
def verificar_umbrales_planta (st : Estado) (planta_id : String)
    (datos : Datos) : List Violacion :=
  verificar_umbrales (obtener_config st planta_id) datos

/-- `SistemaAlertas.enviar_alerta`: drops the event when rate-limited or
when alerts are disabled for the plant; otherwise sends one message to
every loaded user (the returned list of chat ids) and records the send
time. The `eventos` insert is a non-queried side channel, not modelled. -/
def enviar_alerta (st : Estado) (ua : UltimaAlerta) (usuarios : List ℤ)
    (planta_id : String) (now : ℤ) : UltimaAlerta × List ℤ :=
  if ¬ puede_enviar st ua planta_id now then (ua, [])
  else if ¬ (obtener_config st planta_id).alertas_activas then (ua, [])
  else
    let ua' :=
      if (List.lookup planta_id ua).isSome then
        ua.map (fun kv => if kv.1 = planta_id then (kv.1, now) else kv)
      else ua ++ [(planta_id, now)]
    (ua', usuarios)

/-- `recibir_datos` (`POST /api/datos`), authorized path with a payload
carrying a plant id: reads the previous alarm flag from the active
plants, upserts state and history, evaluates thresholds, and dispatches
`enviar_alerta` only when the payload's alarm flag is set while the
stored one was not. Returns the new database state, the new dispatcher
state, and the chat ids notified by this call. -/
def recibir_datos (st : Estado) (ua : UltimaAlerta) (usuarios : List ℤ)
    (datos : Datos) (now : Ahora) : Estado × UltimaAlerta × List ℤ :=
  let planta_id := datos.planta_id
  let alarma_anterior :=
    ((List.lookup planta_id (obtener_plantas_db st)).map
      (fun p => p.alarma)).getD false
  let st' := actualizar_planta_db st planta_id datos now.iso
  let _alertas := verificar_umbrales_planta st' planta_id datos
  if datos.alarma ∧ ¬ alarma_anterior then
    let (ua', enviados) := enviar_alerta st' ua usuarios planta_id now.t
    (st', ua', enviados)
  else
    (st', ua, [])

/-- A sequence of ingestion (upsert) calls for one plant id, each a
payload together with the call's `datetime.now().isoformat()`. -/
def runCalls (pid : String) (calls : List (Datos × String)) (st : Estado) :
    Estado :=
  calls.foldl (fun s c => actualizar_planta_db s pid c.1 c.2) st

/-- The value of an optional payload field at its last occurrence in a
call sequence (the value `COALESCE` leaves in place at the end). -/
def lastProvided {α : Type} (f : Datos → Option α)
    (calls : List (Datos × String)) : Option α :=
  (calls.filterMap (fun c => f c.1)).getLast?

/-- Association-list lookup skips a prefix in which the key is absent. -/
theorem lookup_append_of_none {β : Type} {l₁ l₂ : List (String × β)}
    {k : String} (h : List.lookup k l₁ = none) :
    List.lookup k (l₁ ++ l₂) = List.lookup k l₂ := by
  induction l₁ with
  | nil => rfl
  | cons a l ih =>
    rcases a with ⟨k', v⟩
    cases hk : (k == k') with
    | true => simp [List.lookup, hk] at h
    | false =>
      simp only [List.cons_append, List.lookup, hk] at h ⊢
      exact ih h

/-- Updating the value at a present key is seen by lookup. -/
theorem lookup_map_update {β : Type} {l : List (String × β)} {k : String}
    (h : (List.lookup k l).isSome) (v' : β) :
    List.lookup k (l.map (fun kv => if kv.1 = k then (kv.1, v') else kv))
      = some v' := by
  induction l with
  | nil => simp at h
  | cons a l ih =>
    rcases a with ⟨k', v⟩
    by_cases hkk : k' = k
    · subst hkk
      have hmap : ((k', v) :: l).map (fun kv => if kv.1 = k' then (kv.1, v') else kv)
          = (k', v') :: l.map (fun kv => if kv.1 = k' then (kv.1, v') else kv) := by
        simp
      rw [hmap]
      simp [List.lookup]
    · have hk : (k == k') = false := by
        apply beq_eq_false_iff_ne.mpr
        exact fun he => hkk he.symm
      have hmap : ((k', v) :: l).map (fun kv => if kv.1 = k then (kv.1, v') else kv)
          = (k', v) :: l.map (fun kv => if kv.1 = k then (kv.1, v') else kv) := by
        simp [hkk]
      rw [hmap]
      simp only [List.lookup, hk] at h
      simp only [List.lookup, hk]
      exact ih h

/-- Both branches of the upsert append exactly one history row. -/
theorem historial_actualizar (st : Estado) (pid : String) (datos : Datos)
    (now : String) :
    (actualizar_planta_db st pid datos now).historial
      = st.historial ++ [histDe pid datos now] := by
  cases h : List.lookup pid st.plantas <;>
    simp [actualizar_planta_db, h]

/-- Upsert on an existing row: every field is taken from the payload with
its documented default, except `nombre` and `horas_operacion`, which
`COALESCE` preserves when the payload omits them. -/
theorem lookup_actualizar_some (st : Estado) (pid : String) (datos : Datos)
    (now : String) (p : Planta)
    (hp : List.lookup pid st.plantas = some p) :
    List.lookup pid (actualizar_planta_db st pid datos now).plantas
      = some { p with
          nombre := datos.nombre.getD p.nombre
          presion_bar := datos.presion_bar.getD 0
          temperatura_c := datos.temperatura_c.getD 0
          pureza_pct := datos.pureza_pct.getD 0
          flujo_nm3h := datos.flujo_nm3h.getD 0
          horas_operacion := datos.horas_operacion.getD p.horas_operacion
          modo := datos.modo.getD "Desconocido"
          alarma := datos.alarma
          mensaje_alarma := datos.mensaje_alarma.getD ""
          ultima_actualizacion := now } := by
  simp only [actualizar_planta_db, hp]
  exact lookup_map_update (by simp [hp]) _

/-- Upsert with no existing row inserts the creation record. -/
theorem lookup_actualizar_none (st : Estado) (pid : String) (datos : Datos)
    (now : String) (hp : List.lookup pid st.plantas = none) :
    List.lookup pid (actualizar_planta_db st pid datos now).plantas
      = some { nombre := datos.nombre.getD ("Planta " ++ pid)
               ubicacion := ""
               presion_bar := datos.presion_bar.getD 0
               temperatura_c := datos.temperatura_c.getD 0
               pureza_pct := datos.pureza_pct.getD 0
               flujo_nm3h := datos.flujo_nm3h.getD 0
               horas_operacion := datos.horas_operacion.getD 0
               modo := datos.modo.getD "Desconocido"
               alarma := datos.alarma
               mensaje_alarma := datos.mensaje_alarma.getD ""
               ultima_actualizacion := now
               activa := true
               capacidad_nominal := 0
               fecha_instalacion := none
               responsable := "" } := by
  simp only [actualizar_planta_db, hp]
  rw [lookup_append_of_none hp]
  simp [List.lookup]

/-- Claim C5, counterexample: on the empty slice `calcular_estadisticas`
returns the empty dict (`None` in the model), not a zero-valued
statistics record, so no result carrying zero counts and zero KPIs
exists. -/
theorem C5_counterexample :
    ¬ ∃ s : Stats, calcular_estadisticas [] = some s := by
  rintro ⟨s, h⟩
  simp [calcular_estadisticas] at h

/-- Claim C5, amended: `summarize([])` returns an explicit empty result —
the empty dict, with no counts or KPI fields at all — and, being a total
function of the slice, never throws and never divides by zero. -/
theorem C5_amended : calcular_estadisticas [] = none := rfl

/-- Claim C3, counterexample: a history record stores the server clock,
not the sender's payload timestamp: ingesting a payload carrying
timestamp 2024-01-01T00:00:00 at server time 2024-06-01T12:00:00 stores
the latter. -/
theorem C3_counterexample :
    ((actualizar_planta_db estadoInicial "p1"
        { planta_id := "p1", pureza_pct := some 90,
          timestamp := some "2024-01-01T00:00:00" }
        "2024-06-01T12:00:00").historial.map (fun h => h.timestamp))
      = ["2024-06-01T12:00:00"]
    ∧ (some "2024-06-01T12:00:00" : Option String) ≠ some "2024-01-01T00:00:00" := by
  constructor
  · rfl
  · decide

/-- Claim C3, amended: the timestamp stored in every history record is
the server's `datetime.now()` at ingestion time, and the result of the
upsert is entirely independent of any timestamp the sender put in the
payload. -/
theorem C3_amended (st : Estado) (pid : String) (datos : Datos)
    (now : String) :
    ((actualizar_planta_db st pid datos now).historial.map
        (fun h => h.timestamp)).getLast? = some now
    ∧ ∀ ts : Option String,
        actualizar_planta_db st pid { datos with timestamp := ts } now
          = actualizar_planta_db st pid datos now := by
  constructor
  · rw [historial_actualizar]
    simp [histDe]
  · intro ts
    rcases datos with ⟨a, b, c, d, e, f, g, m, al, msg, ts0⟩
    rfl

/-- Claim C6: the evaluator's violation list always respects the fixed
order purity, pressure, temperature; the sample purity=80, pressure=8,
temperature=50 under the default limits (93, 7, 45) yields exactly those
three violations in order; and a sample within all limits yields the
empty list. -/
theorem C6_theorem :
    (∀ (config : ConfigAlertas) (datos : Datos),
      ((verificar_umbrales config datos).map (fun v => v.umbral)).Sublist
        [Umbral.pureza_baja, Umbral.presion_alta, Umbral.temperatura_alta])
    ∧ verificar_umbrales configPorDefecto
        { planta_id := "p1", pureza_pct := some 80, presion_bar := some 8,
          temperatura_c := some 50 }
      = [⟨Umbral.pureza_baja, 80, 93⟩, ⟨Umbral.presion_alta, 8, 7⟩,
         ⟨Umbral.temperatura_alta, 50, 45⟩]
    ∧ (∀ (config : ConfigAlertas) (datos : Datos),
        config.pureza_minima ≤ datos.pureza_pct.getD 100 →
        datos.presion_bar.getD 0 ≤ config.presion_maxima →
        datos.temperatura_c.getD 0 ≤ config.temperatura_maxima →
        verificar_umbrales config datos = []) := by
  refine ⟨?_, by decide, ?_⟩
  · intro config datos
    simp only [verificar_umbrales]
    split_ifs <;> simp
  · intro config datos h1 h2 h3
    have g1 : ¬ (datos.pureza_pct.getD 100 < config.pureza_minima) :=
      not_lt.mpr h1
    have g2 : ¬ (config.presion_maxima < datos.presion_bar.getD 0) :=
      not_lt.mpr h2
    have g3 : ¬ (config.temperatura_maxima < datos.temperatura_c.getD 0) :=
      not_lt.mpr h3
    simp [verificar_umbrales, g1, g2, g3]

/-- Claim C6, witness: a concrete in-limits sample produces no
violations. -/
theorem C6_witness :
    verificar_umbrales configPorDefecto
      { planta_id := "p1", pureza_pct := some 95, presion_bar := some 6,
        temperatura_c := some 40 } = [] :=
  C6_theorem.2.2 configPorDefecto
    { planta_id := "p1", pureza_pct := some 95, presion_bar := some 6,
      temperatura_c := some 40 } (by decide) (by decide) (by decide)

/-- Claim C10: a sample with no metric fields is evaluated as if purity
were 100 and pressure and temperature 0, so under any configuration with
minimum purity at most 100 and non-negative maxima it produces no
violations. -/
theorem C10_theorem :
    (∀ (config : ConfigAlertas) (pid : String),
      verificar_umbrales config { planta_id := pid }
        = verificar_umbrales config
            { planta_id := pid, pureza_pct := some 100,
              presion_bar := some 0, temperatura_c := some 0 })
    ∧ (∀ (config : ConfigAlertas) (pid : String),
        config.pureza_minima ≤ 100 → 0 ≤ config.presion_maxima →
        0 ≤ config.temperatura_maxima →
        verificar_umbrales config { planta_id := pid } = []) := by
  constructor
  · intro config pid
    rfl
  · intro config pid h1 h2 h3
    have g1 : ¬ ((100 : ℚ) < config.pureza_minima) := not_lt.mpr h1
    have g2 : ¬ (config.presion_maxima < (0 : ℚ)) := not_lt.mpr h2
    have g3 : ¬ (config.temperatura_maxima < (0 : ℚ)) := not_lt.mpr h3
    simp [verificar_umbrales, g1, g2, g3]

/-- Claim C10, witness: the empty-field sample yields no violations
under the default configuration. -/
theorem C10_witness :
    verificar_umbrales configPorDefecto { planta_id := "p1" } = [] :=
  C10_theorem.2 configPorDefecto "p1" (by decide) (by decide) (by decide)

/-- Claim C4, counterexample: deactivating the same plant twice reports
success both times — the soft-deleted row still matches the UPDATE, so
the second call does not report not-found. -/
theorem C4_counterexample :
    (let st1 := (agregar_planta_db estadoInicial "p1" "Planta Uno" "" 0 ""
                  "2024-01-01T00:00:00").1
     let st2 := actualizar_planta_db st1 "p1"
                  { planta_id := "p1", pureza_pct := some 95 }
                  "2024-01-02T00:00:00"
     let r1 := eliminar_planta_db st2 "p1"
     let r2 := eliminar_planta_db r1.1 "p1"
     r1.2 = true ∧ r2.2 = true) := by decide

/-- Claim C4, amended: the first deactivation reports success and so does
the second (not-found is reported only when no row with the identifier
exists at all); after deactivation the plant leaves the active listing
but its history remains fully queryable. -/
theorem C4_amended :
    (let st1 := (agregar_planta_db estadoInicial "p1" "Planta Uno" "" 0 ""
                  "2024-01-01T00:00:00").1
     let st2 := actualizar_planta_db st1 "p1"
                  { planta_id := "p1", pureza_pct := some 95 }
                  "2024-01-02T00:00:00"
     let r1 := eliminar_planta_db st2 "p1"
     let r2 := eliminar_planta_db r1.1 "p1"
     r1.2 = true ∧ r2.2 = true
     ∧ (eliminar_planta_db r2.1 "desconocida").2 = false
     ∧ List.lookup "p1" (obtener_plantas_db r2.1) = none
     ∧ obtener_historial_db r2.1.historial "p1" none none none
         = [histDe "p1" { planta_id := "p1", pureza_pct := some 95 }
             "2024-01-02T00:00:00"]) := by decide

/-- Claim C9, counterexample: after a plant is registered and then
soft-deleted, no active plant with that id exists, yet a new
registration still reports already-exists — the PRIMARY KEY conflict
fires on the inactive row. -/
theorem C9_counterexample :
    (let st1 := (agregar_planta_db estadoInicial "p1" "Planta Uno" "Lima" 0 ""
                  "2024-01-01T00:00:00").1
     let st2 := (eliminar_planta_db st1 "p1").1
     (agregar_planta_db st2 "p1" "Planta Uno" "Lima" 0 ""
        "2024-02-01T00:00:00").2 = false
     ∧ List.lookup "p1" (obtener_plantas_db st2) = none) := by decide

/-- Claim C9, amended: `register` returns a boolean outcome; in a state
where every threshold-config row belongs to a plant row, it reports
already-exists exactly when a plant row with that id exists — active or
soft-deleted — and on success it creates an active plant with zeroed
metrics and the default threshold configuration. -/
theorem C9_amended (st : Estado) (pid nombre ubicacion : String)
    (capacidad : ℚ) (responsable now : String)
    (hwf : (List.lookup pid st.config_alertas).isSome = true →
           (List.lookup pid st.plantas).isSome = true) :
    ((agregar_planta_db st pid nombre ubicacion capacidad responsable now).2
        = false ↔ (List.lookup pid st.plantas).isSome = true)
    ∧ (List.lookup pid st.plantas = none →
        List.lookup pid
            (agregar_planta_db st pid nombre ubicacion capacidad responsable
              now).1.plantas
          = some { nombre := nombre, ubicacion := ubicacion, presion_bar := 0,
                   temperatura_c := 0, pureza_pct := 0, flujo_nm3h := 0,
                   horas_operacion := 0, modo := "Desconocido", alarma := false,
                   mensaje_alarma := "", ultima_actualizacion := now,
                   activa := true, capacidad_nominal := capacidad,
                   fecha_instalacion := some now, responsable := responsable }
        ∧ List.lookup pid
            (agregar_planta_db st pid nombre ubicacion capacidad responsable
              now).1.config_alertas
          = some configPorDefecto) := by
  have hconf : List.lookup pid st.plantas = none →
      List.lookup pid st.config_alertas = none := by
    intro hp
    cases hx : List.lookup pid st.config_alertas with
    | none => rfl
    | some c =>
      have := hwf (by rw [hx]; rfl)
      rw [hp] at this
      simp at this
  constructor
  · cases hp : List.lookup pid st.plantas with
    | some p =>
      simp [agregar_planta_db, hp]
    | none =>
      simp [agregar_planta_db, hp, hconf hp]
  · intro hp
    simp only [agregar_planta_db, hp, hconf hp, Option.isSome_none,
      Bool.or_self, Bool.false_eq_true, if_false]
    constructor
    · rw [lookup_append_of_none hp]
      simp [List.lookup]
    · rw [lookup_append_of_none (hconf hp)]
      simp [List.lookup]

/-- Claim C9, witness: on the empty database registration succeeds and
the already-exists outcome is equivalent to a pre-existing row. -/
theorem C9_witness :
    ((agregar_planta_db estadoInicial "p1" "Planta Uno" "Lima" 0 "Resp"
        "2024-01-01T00:00:00").2 = false
      ↔ (List.lookup "p1" estadoInicial.plantas).isSome = true) :=
  (C9_amended estadoInicial "p1" "Planta Uno" "Lima" 0 "Resp"
    "2024-01-01T00:00:00" (by decide)).1

/-- Claim C1, counterexample: after registering `p1`, ingesting
purity=85 with alarm=false does make the threshold evaluator report the
purity violation, but the dispatcher sends no notification at all —
`recibir_datos` only dispatches when the payload alarm flag is true
while the stored flag was false, so the claimed first notification never
happens. -/
theorem C1_counterexample :
    (let reg := agregar_planta_db estadoInicial "p1" "Planta Uno" "" 0 ""
                  "2024-01-01T09:00:00"
     let r1 := recibir_datos reg.1 [] [777]
                 { planta_id := "p1", pureza_pct := some 85, alarma := false }
                 ⟨"2024-01-01T10:00:00", 0⟩
     verificar_umbrales_planta r1.1 "p1"
         { planta_id := "p1", pureza_pct := some 85, alarma := false }
       = [⟨Umbral.pureza_baja, 85, 93⟩]
     ∧ r1.2.2 = []) := by decide

/-- Claim C1, amended: threshold violations alone never notify — after
registering `p1`, ingesting purity=85 with alarm=false reports a purity
violation and sends nothing; a notification is sent exactly on an
alarm-flag rising edge that survives the cool-down: ingesting alarm=true
at t=1 sends one notification to the recipient list, a later rising edge
at t=3 (after clearing at t=2) is dropped as within the 5-minute
interval, and a rising edge at t=7 (6 minutes after the last send)
produces the second notification. -/
theorem C1_amended :
    (let reg := agregar_planta_db estadoInicial "p1" "Planta Uno" "" 0 ""
                  "2024-01-01T09:00:00"
     let d1 : Datos := { planta_id := "p1", pureza_pct := some 85 }
     let r1 := recibir_datos reg.1 [] [777] d1 ⟨"2024-01-01T10:00:00", 0⟩
     let r2 := recibir_datos r1.1 r1.2.1 [777]
                 { planta_id := "p1", pureza_pct := some 84, alarma := true }
                 ⟨"2024-01-01T10:01:00", 1⟩
     let r3 := recibir_datos r2.1 r2.2.1 [777]
                 { planta_id := "p1", pureza_pct := some 83 }
                 ⟨"2024-01-01T10:02:00", 2⟩
     let r4 := recibir_datos r3.1 r3.2.1 [777]
                 { planta_id := "p1", pureza_pct := some 82, alarma := true }
                 ⟨"2024-01-01T10:03:00", 3⟩
     let r5 := recibir_datos r4.1 r4.2.1 [777]
                 { planta_id := "p1", pureza_pct := some 81 }
                 ⟨"2024-01-01T10:04:00", 4⟩
     let r6 := recibir_datos r5.1 r5.2.1 [777]
                 { planta_id := "p1", pureza_pct := some 80, alarma := true }
                 ⟨"2024-01-01T10:07:00", 7⟩
     verificar_umbrales_planta r1.1 "p1" d1 = [⟨Umbral.pureza_baja, 85, 93⟩]
     ∧ r1.2.2 = []
     ∧ r2.2.2 = [777]
     ∧ r3.2.2 = []
     ∧ r4.2.2 = []
     ∧ r5.2.2 = []
     ∧ r6.2.2 = [777]) := by decide

/-- Byte order is invariant under a common prefix. -/
theorem charsLe_append (p a b : List Char) :
    charsLe (p ++ a) (p ++ b) = charsLe a b := by
  induction p with
  | nil => rfl
  | cons c cs ih =>
    simp only [List.cons_append, charsLe, lt_irrefl, if_false, ite_false]
    exact ih

/-- Membership through ordered insertion. -/
theorem mem_insertLe {α : Type} (le : α → α → Bool) (x y : α)
    (l : List α) : y ∈ insertLe le x l ↔ y = x ∨ y ∈ l := by
  induction l with
  | nil => simp [insertLe]
  | cons a l ih =>
    simp only [insertLe]
    by_cases h : le x a = true
    · simp [h]
    · simp only [if_neg h, List.mem_cons, ih]
      tauto

/-- Membership is preserved by the `ORDER BY` model. -/
theorem mem_sortLe {α : Type} (le : α → α → Bool) (y : α)
    (l : List α) : y ∈ sortLe le l ↔ y ∈ l := by
  induction l with
  | nil => simp [sortLe]
  | cons a l ih =>
    simp only [sortLe, mem_insertLe, List.mem_cons, ih]

/-- Claim C8: a history query whose bounds are the bare day `d` (10
characters) is inclusive of the whole day: every stored sample of the
queried plant whose timestamp is `d ++ "T" ++ t` for a time-of-day
string between 00:00:00 and 23:59:59 appears in the result. -/
theorem C8_theorem (hist : List Hist) (pid d t : String) (e : Hist)
    (he : e ∈ hist) (hpid : e.planta_id = pid) (hd : d.length = 10)
    (hts : e.timestamp = d ++ "T" ++ t)
    (h0 : strLe "00:00:00" t = true) (h1 : strLe t "23:59:59" = true) :
    e ∈ obtener_historial_db hist pid (some d) (some d) none := by
  have hdata : ∀ a b : String, (a ++ b).data = a.data ++ b.data := by
    intro a b
    exact String.data_append a b
  have hlo : strLe (d ++ "T00:00:00") (d ++ "T" ++ t) = true := by
    unfold strLe
    simp only [hdata]
    rw [show (['T', '0', '0', ':', '0', '0', ':', '0', '0'] : List Char)
        = ['T'] ++ "00:00:00".data from rfl]
    rw [← List.append_assoc]
    rw [charsLe_append]
    exact h0
  have hhi : strLe (d ++ "T" ++ t) (d ++ "T23:59:59") = true := by
    unfold strLe
    simp only [hdata]
    rw [show (['T', '2', '3', ':', '5', '9', ':', '5', '9'] : List Char)
        = ['T'] ++ "23:59:59".data from rfl]
    rw [← List.append_assoc]
    rw [charsLe_append]
    exact h1
  have hne : (d == "") = false := by
    cases hq : (d == "") with
    | false => rfl
    | true =>
      have hd' := hd
      rw [eq_of_beq hq] at hd'
      simp at hd'
  simp only [obtener_historial_db]
  rw [mem_sortLe]
  rw [List.mem_filter]
  refine ⟨he, ?_⟩
  simp only [hts, hd, hpid, if_true, hne, Bool.false_or]
  simp only [hlo, hhi]
  simp

/-- Claim C8, witness: the sample at 2024-01-05T23:59:00 is returned by
the whole-day query `hasta = 2024-01-05`. -/
theorem C8_witness :
    ({ planta_id := "p1", timestamp := "2024-01-05T23:59:00",
       presion_bar := some 5, temperatura_c := some 30,
       pureza_pct := some 95, flujo_nm3h := some 10, modo := "Producción",
       alarma := false, mensaje_alarma := "", horas_operacion := 100 } : Hist)
      ∈ obtener_historial_db
          [{ planta_id := "p1", timestamp := "2024-01-05T23:59:00",
             presion_bar := some 5, temperatura_c := some 30,
             pureza_pct := some 95, flujo_nm3h := some 10,
             modo := "Producción", alarma := false, mensaje_alarma := "",
             horas_operacion := 100 }]
          "p1" (some "2024-01-05") (some "2024-01-05") none :=
  C8_theorem _ "p1" "2024-01-05" "23:59:00" _ (by simp) (by rfl) (by rfl)
    (by rfl) (by decide) (by decide)

/-- Claim C7: per-metric statistics — count counts exactly the non-null
values; the sample standard deviation uses divisor `n - 1` and is 0
whenever at most one value is present (in particular for every
single-element slice); and on the purity values 90 and 95 the mean is
92.5 and the standard deviation rounds to 3.54 at two decimals. -/
theorem C7_theorem :
    (let e90 : Hist :=
      { planta_id := "p1", timestamp := "2024-01-01T00:00:00",
        presion_bar := some 5, temperatura_c := some 30,
        pureza_pct := some 90, flujo_nm3h := some 10, modo := "Producción",
        alarma := false, mensaje_alarma := "", horas_operacion := 1 }
     let e95 : Hist :=
      { planta_id := "p1", timestamp := "2024-01-01T01:00:00",
        presion_bar := some 5, temperatura_c := some 30,
        pureza_pct := some 95, flujo_nm3h := some 10, modo := "Producción",
        alarma := false, mensaje_alarma := "", horas_operacion := 2 }
     ((calcular_estadisticas [e90, e95]).map (fun s => s.pureza.avg))
        = some (92.5 : ℚ)
     ∧ ((calcular_estadisticas [e90, e95]).map (fun s => s.pureza.std))
        = some (3.54 : ℝ))
    ∧ (∀ e : Hist,
        ((calcular_estadisticas [e]).map
            (fun s => [s.pureza.std, s.flujo.std, s.presion.std,
                       s.temperatura.std]))
          = some [0, 0, 0, 0])
    ∧ (∀ values : List (Option ℚ),
        (safe_stats values).count = (values.filterMap id).length
        ∧ ((values.filterMap id).length ≤ 1 → (safe_stats values).std = 0)) := by
  refine ⟨⟨?_, ?_⟩, ?_, ?_⟩
  · have h : ((calcular_estadisticas
        [{ planta_id := "p1", timestamp := "2024-01-01T00:00:00",
           presion_bar := some 5, temperatura_c := some 30,
           pureza_pct := some 90, flujo_nm3h := some 10,
           modo := "Producción", alarma := false, mensaje_alarma := "",
           horas_operacion := 1 },
         { planta_id := "p1", timestamp := "2024-01-01T01:00:00",
           presion_bar := some 5, temperatura_c := some 30,
           pureza_pct := some 95, flujo_nm3h := some 10,
           modo := "Producción", alarma := false, mensaje_alarma := "",
           horas_operacion := 2 }]).map (fun s => s.pureza.avg))
        = some (bround2Q (meanQ [(90 : ℚ), 95])) := rfl
    rw [h]
    rw [show meanQ [(90 : ℚ), 95] = 185 / 2 by norm_num [meanQ]]
    rw [show bround2Q (185 / 2) = 92.5 by
      rw [bround2Q, show (185 / 2 * 100 : ℚ) = ((9250 : ℤ) : ℚ) by norm_num]
      rw [broundQ]
      simp [Int.fract_intCast, round_intCast]
      norm_num]
  · have h : ((calcular_estadisticas
        [{ planta_id := "p1", timestamp := "2024-01-01T00:00:00",
           presion_bar := some 5, temperatura_c := some 30,
           pureza_pct := some 90, flujo_nm3h := some 10,
           modo := "Producción", alarma := false, mensaje_alarma := "",
           horas_operacion := 1 },
         { planta_id := "p1", timestamp := "2024-01-01T01:00:00",
           presion_bar := some 5, temperatura_c := some 30,
           pureza_pct := some 95, flujo_nm3h := some 10,
           modo := "Producción", alarma := false, mensaje_alarma := "",
           horas_operacion := 2 }]).map (fun s => s.pureza.std))
        = some (bround2R (stdevR [(90 : ℚ), 95])) := rfl
    rw [h]
    have hvar : ((varQ [(90 : ℚ), 95] : ℚ) : ℝ) = 25 / 2 := by
      rw [show varQ [(90 : ℚ), 95] = 25 / 2 by norm_num [varQ, meanQ]]
      norm_num
    have hs : stdevR [(90 : ℚ), 95] = Real.sqrt (25 / 2) := by
      rw [stdevR, hvar]
    rw [hs]
    have hs0 : (0 : ℝ) ≤ Real.sqrt (25 / 2) := Real.sqrt_nonneg _
    have hs2 : Real.sqrt ((25 : ℝ) / 2) ^ 2 = 25 / 2 :=
      Real.sq_sqrt (by norm_num)
    have hlo : (3.5355 : ℝ) < Real.sqrt (25 / 2) := by nlinarith [hs2, hs0]
    have hhi : Real.sqrt ((25 : ℝ) / 2) < 3.536 := by nlinarith [hs2, hs0]
    have hxlo : (353.55 : ℝ) < Real.sqrt (25 / 2) * 100 := by linarith
    have hxhi : Real.sqrt ((25 : ℝ) / 2) * 100 < 353.6 := by linarith
    have hfl : ⌊Real.sqrt ((25 : ℝ) / 2) * 100⌋ = 353 := by
      rw [Int.floor_eq_iff]
      constructor
      · push_cast
        linarith
      · push_cast
        linarith
    have hfr : Int.fract (Real.sqrt ((25 : ℝ) / 2) * 100) ≠ 1 / 2 := by
      rw [Int.fract, hfl]
      intro h'
      push_cast at h'
      linarith
    have hrd : round (Real.sqrt ((25 : ℝ) / 2) * 100) = 354 := by
      rw [round_eq, Int.floor_eq_iff]
      constructor
      · push_cast
        linarith
      · push_cast
        linarith
    rw [bround2R, broundR, if_neg hfr, hrd]
    norm_num
  · intro e
    rcases e with ⟨pid, ts, op, ot, oz, og, m, al, msg, h⟩
    cases op <;> cases ot <;> cases oz <;> cases og <;>
      simp [calcular_estadisticas, safe_stats]
  · intro values
    cases hv : values.filterMap id with
    | nil =>
      constructor
      · simp [safe_stats, hv]
      · intro _
        simp [safe_stats, hv]
    | cons a l =>
      constructor
      · simp [safe_stats, hv]
      · intro hlen
        have hl : l = [] := by
          cases l with
          | nil => rfl
          | cons b bs => simp at hlen
        subst hl
        simp [safe_stats, hv]

/-- Claim C7, witness: a single-value slice has standard deviation 0. -/
theorem C7_witness : (safe_stats [some (42 : ℚ)]).std = 0 :=
  (C7_theorem.2.2 [some 42]).2 (by decide)

/-- A call sequence splits at its last call. -/
theorem runCalls_concat (pid : String) (l : List (Datos × String))
    (c : Datos × String) (st : Estado) :
    runCalls pid (l ++ [c]) st
      = actualizar_planta_db (runCalls pid l st) pid c.1 c.2 := by
  simp [runCalls, List.foldl_append]

/-- Every upsert call appends exactly one history row, in call order. -/
theorem runCalls_historial (pid : String) (calls : List (Datos × String))
    (st : Estado) :
    (runCalls pid calls st).historial
      = st.historial ++ calls.map (fun c => histDe pid c.1 c.2) := by
  induction calls generalizing st with
  | nil => simp [runCalls]
  | cons c l ih =>
    simp only [runCalls, List.foldl_cons]
    rw [show List.foldl (fun s c => actualizar_planta_db s pid c.1 c.2)
          (actualizar_planta_db st pid c.1 c.2) l
        = runCalls pid l (actualizar_planta_db st pid c.1 c.2) from rfl]
    rw [ih, historial_actualizar]
    simp

/-- The last provided value of an optional field, after appending one
call. -/
theorem lastProvided_concat {α : Type} (f : Datos → Option α)
    (l : List (Datos × String)) (c : Datos × String) :
    lastProvided f (l ++ [c])
      = match f c.1 with
        | some v => some v
        | none => lastProvided f l := by
  cases hf : f c.1 with
  | some v =>
    rw [lastProvided, List.filterMap_append]
    simp [List.filterMap, hf, List.getLast?_concat]
  | none =>
    rw [lastProvided, List.filterMap_append]
    simp [List.filterMap, hf, lastProvided]

/-- Claim C2, counterexample: two upserts to the same plant, the first
providing 100 operating hours and the second omitting the field — the
final state keeps 100 instead of taking the last call's (default 0)
value, because `horas_operacion` is also protected by `COALESCE`, not
only the display name. -/
theorem C2_counterexample :
    (let final := runCalls "p1"
       [({ planta_id := "p1", horas_operacion := some 100 }, "t1"),
        ({ planta_id := "p1" }, "t2")] estadoInicial
     (List.lookup "p1" final.plantas).map (fun p => p.horas_operacion)
        = some 100
     ∧ ¬ ((List.lookup "p1" final.plantas).map (fun p => p.horas_operacion)
        = some (({ planta_id := "p1" } : Datos).horas_operacion.getD 0))) := by
  decide

/-- Claim C2, amended: after any nonempty sequence of upsert calls to one
plant identifier (starting from a state with no row for it), the current
state equals the last call's fields with their documented defaults,
except the display name AND the cumulative operating hours, which keep
the last provided value (creation default when never provided); and the
history holds exactly one sample per call, in call order. -/
theorem C2_amended (pid : String) (calls : List (Datos × String))
    (st0 : Estado) (h0 : List.lookup pid st0.plantas = none)
    (hne : calls ≠ []) :
    ∃ last, calls.getLast? = some last
    ∧ List.lookup pid (runCalls pid calls st0).plantas
        = some { nombre := (lastProvided (fun d => d.nombre) calls).getD
                   ("Planta " ++ pid)
                 ubicacion := ""
                 presion_bar := last.1.presion_bar.getD 0
                 temperatura_c := last.1.temperatura_c.getD 0
                 pureza_pct := last.1.pureza_pct.getD 0
                 flujo_nm3h := last.1.flujo_nm3h.getD 0
                 horas_operacion :=
                   (lastProvided (fun d => d.horas_operacion) calls).getD 0
                 modo := last.1.modo.getD "Desconocido"
                 alarma := last.1.alarma
                 mensaje_alarma := last.1.mensaje_alarma.getD ""
                 ultima_actualizacion := last.2
                 activa := true
                 capacidad_nominal := 0
                 fecha_instalacion := none
                 responsable := "" }
    ∧ (runCalls pid calls st0).historial
        = st0.historial ++ calls.map (fun c => histDe pid c.1 c.2) := by
  induction calls using List.reverseRecOn with
  | nil => exact absurd rfl hne
  | append_singleton l c ih =>
    refine ⟨c, List.getLast?_concat _, ?_, runCalls_historial pid _ st0⟩
    by_cases hl : l = []
    · subst hl
      rw [show runCalls pid ([] ++ [c]) st0
            = actualizar_planta_db st0 pid c.1 c.2 from rfl]
      rw [lookup_actualizar_none st0 pid c.1 c.2 h0]
      have hnom : (lastProvided (fun d => d.nombre) ([] ++ [c])).getD
            ("Planta " ++ pid) = c.1.nombre.getD ("Planta " ++ pid) := by
        cases hn : c.1.nombre <;>
          simp [lastProvided, List.filterMap, hn]
      have hhor : (lastProvided (fun d => d.horas_operacion)
            ([] ++ [c])).getD 0 = c.1.horas_operacion.getD 0 := by
        cases hn : c.1.horas_operacion <;>
          simp [lastProvided, List.filterMap, hn]
      rw [hnom, hhor]
    · obtain ⟨pl, hpl, hlook, _⟩ := ih hl
      rw [runCalls_concat]
      rw [lookup_actualizar_some _ pid c.1 c.2 _ hlook]
      have hnom : c.1.nombre.getD
            ((lastProvided (fun d => d.nombre) l).getD ("Planta " ++ pid))
          = (lastProvided (fun d => d.nombre) (l ++ [c])).getD
              ("Planta " ++ pid) := by
        rw [lastProvided_concat]
        cases hn : c.1.nombre <;> simp [hn]
      have hhor : c.1.horas_operacion.getD
            ((lastProvided (fun d => d.horas_operacion) l).getD 0)
          = (lastProvided (fun d => d.horas_operacion) (l ++ [c])).getD 0 := by
        rw [lastProvided_concat]
        cases hn : c.1.horas_operacion <;> simp [hn]
      rw [← hnom, ← hhor]

/-- Claim C2, witness: a single upsert call on the empty database. -/
theorem C2_witness :
    ∃ last,
      ([({ planta_id := "p1", pureza_pct := some 91 }, "t1")]
          : List (Datos × String)).getLast? = some last
      ∧ List.lookup "p1" (runCalls "p1"
            [({ planta_id := "p1", pureza_pct := some 91 }, "t1")]
            estadoInicial).plantas
          = some { nombre := (lastProvided (fun d => d.nombre)
                     [({ planta_id := "p1", pureza_pct := some 91 }, "t1")]).getD
                     ("Planta " ++ "p1")
                   ubicacion := ""
                   presion_bar := last.1.presion_bar.getD 0
                   temperatura_c := last.1.temperatura_c.getD 0
                   pureza_pct := last.1.pureza_pct.getD 0
                   flujo_nm3h := last.1.flujo_nm3h.getD 0
                   horas_operacion :=
                     (lastProvided (fun d => d.horas_operacion)
                       [({ planta_id := "p1", pureza_pct := some 91 }, "t1")]).getD 0
                   modo := last.1.modo.getD "Desconocido"
                   alarma := last.1.alarma
                   mensaje_alarma := last.1.mensaje_alarma.getD ""
                   ultima_actualizacion := last.2
                   activa := true
                   capacidad_nominal := 0
                   fecha_instalacion := none
                   responsable := "" }
      ∧ (runCalls "p1" [({ planta_id := "p1", pureza_pct := some 91 }, "t1")]
            estadoInicial).historial
          = estadoInicial.historial
            ++ [({ planta_id := "p1", pureza_pct := some 91 }, "t1")].map
                (fun c => histDe "p1" c.1 c.2) :=
  C2_amended "p1" [({ planta_id := "p1", pureza_pct := some 91 }, "t1")]
    estadoInicial (by rfl) (by decide)
